import Mathlib

/-!
Shallow embedding of `pytest_testrail/plugin.py` (class `PyTestRailPlugin`).

The plugin buffers per-test results during a pytest session, resolves a
TestRail run or plan at collection time, and publishes the buffered results
at session end.  The remote TestRail client is an injected collaborator; it
is modelled by the `Remote` structure below, whose fields give the decoded
response (payload or error string) of each endpoint the plugin consumes.
Python floats (test durations) are modelled as rationals, Python `None` as
`Option.none`, raised exceptions as explicit error values, and the prints
that report remote errors as returned log strings.
-/

/-- Python's built-in `round` on a rational, one-argument form: round half to
even (banker's rounding), as used by `int(round(duration))` in
`__process_result`. -/
def python_round (q : ℚ) : ℤ :=
  if q - Int.floor q < 1/2 then Int.floor q
  else if 1/2 < q - Int.floor q then Int.floor q + 1
  else if Int.floor q % 2 = 0 then Int.floor q else Int.floor q + 1

/-- `PyTestRailPlugin.max_comment_size`. -/
def max_comment_size : Nat := 4000

/-- The characters of the fixed comment header literal
`'# Pytest result: #\n'` from `__formatted_comment`. -/
def comment_header : List Char :=
  ['#', ' ', 'P', 'y', 't', 'e', 's', 't', ' ', 'r', 'e', 's', 'u', 'l',
   't', ':', ' ', '#', '\n']

/-- The characters of the truncation notice literal `'Log truncated\n...\n'`
from `__formatted_comment`. -/
def trunc_notice : List Char :=
  ['L', 'o', 'g', ' ', 't', 'r', 'u', 'n', 'c', 'a', 't', 'e', 'd', '\n',
   '.', '.', '.', '\n']

/-- `payload.replace('\n', '\n    ')`: every newline is followed by four
spaces (the pattern is a single character, so `str.replace` is a pointwise
expansion). -/
def indent_chars : List Char → List Char
  | [] => []
  | c :: cs =>
    if c = '\n' then '\n' :: ' ' :: ' ' :: ' ' :: ' ' :: indent_chars cs
    else c :: indent_chars cs

/-- Python `payload[-m:]` for `m ≥ 1`: the last `m` characters (the whole
list when it has at most `m` characters).  The plugin only uses
`m = max_comment_size = 4000 ≥ 1`. -/
def last_chars (m : Nat) (l : List Char) : List Char :=
  l.drop (l.length - m)

/-- `PyTestRailPlugin.__formatted_comment` on the character list of
`str(comment)`: header, then the truncation notice when the payload exceeds
`max_comment_size`, then the last `max_comment_size` characters indented by
four spaces (a leading `'    '` plus the newline replacement). -/
def formatted_comment_chars (payload : List Char) : List Char :=
  comment_header
    ++ (if max_comment_size < payload.length then trunc_notice else [])
    ++ ([' ', ' ', ' ', ' '] ++ indent_chars (last_chars max_comment_size payload))

/-- `PyTestRailPlugin.__formatted_comment` as a function on strings. -/
def formatted_comment (comment : String) : String :=
  String.mk (formatted_comment_chars comment.data)

/-- The dict lookup `{"passed": 1, "failed": 5, "skipped": 2}.get(outcome)`
in `pytest_runtest_makereport`; `.get` yields `None` for any other key. -/
def outcome_status (outcome : String) : Option Nat :=
  List.lookup outcome [("passed", 1), ("failed", 5), ("skipped", 2)]

/-- Value of a list of decimal digit characters, most significant first. -/
def digits_value (l : List Char) : Nat :=
  l.foldl (fun acc c => 10 * acc + (c.toNat - 48)) 0

/-- `clean_test_ids` on one id: `int(re.search('(?P<test_id>[0-9]+$)', s))`,
the integer value of the maximal trailing digit run of `s` (e.g.
`C123 ↦ 123`). -/
def clean_test_id (s : String) : Nat :=
  digits_value ((s.data.reverse.takeWhile Char.isDigit).reverse)

/-- One element of `PyTestRailPlugin.results`, the dict appended by
`add_result`.  `status_id` is an `Option` because the status stored by
`pytest_runtest_makereport` is the result of a `dict.get`, which can be
`None`.  `comment` models `str`-able `rep.longrepr` (empty string for the
falsy `None`/`''` cases, which the code treats identically). -/
structure RawResult where
  case_id : Nat
  status_id : Option Nat
  comment : String
  duration : ℚ
deriving DecidableEq

/-- `PyTestRailPlugin.add_result`: append one entry per test id, all sharing
the same status, comment and duration. -/
def add_result (results : List RawResult) (test_ids : List Nat)
    (status : Option Nat) (comment : String) (duration : ℚ) : List RawResult :=
  results ++ test_ids.map (fun id => ⟨id, status, comment, duration⟩)

/-- The session-scoped fields of `PyTestRailPlugin` that the embedded
operations read or write (the injected client is passed separately as a
`Remote`). -/
structure PluginState where
  assign_user_id : Nat
  project_id : Nat
  suite_id : Nat
  include_all : Bool
  testrun_name : Option String
  testrun_id : Nat
  testplan_id : Nat
  version : String
  close_on_complete : Bool
  publish_blocked : Bool
  skip_missing : Bool
  results : List RawResult
deriving DecidableEq

/-- `PyTestRailPlugin.pytest_runtest_makereport` for one finished test:
when the item carries the testrail marker, the report phase is `'call'` and
the marker id list is non-empty (Python truthiness), record one result per
marker id with the dict-get of the outcome as status. -/
def pytest_runtest_makereport (st : PluginState) (has_marker : Bool)
    (marker_ids : List String) (rep_when : String) (rep_outcome : String)
    (rep_longrepr : String) (rep_duration : ℚ) : PluginState :=
  if has_marker = true ∧ rep_when = "call" ∧ marker_ids ≠ [] then
    { st with results :=
                add_result st.results (marker_ids.map clean_test_id)
                  (outcome_status rep_outcome) rep_longrepr rep_duration }
  else st

/-- A run row inside a plan entry of a `get_plan` response. -/
structure PlanRun where
  id : Nat
  is_completed : Bool
deriving DecidableEq

/-- One element of the `entries` array of a `get_plan` response. -/
structure PlanEntry where
  runs : List PlanRun
deriving DecidableEq

/-- Decoded `get_plan` response payload. -/
structure PlanInfo where
  is_completed : Bool
  entries : List PlanEntry
deriving DecidableEq

/-- Decoded `get_run` response payload. -/
structure RunInfo where
  is_completed : Bool
deriving DecidableEq

/-- One test row of a `get_tests` response. -/
structure RemoteTest where
  case_id : Nat
  status_id : Nat
deriving DecidableEq

/-- The injected TestRail client, abstracted as the decoded outcome of each
request the plugin issues: `Except.error e` models a response whose
`get_error` field is the string `e`, `Except.ok` a successful payload.
`addRun` is the response to the single `add_run` POST of the session;
`postResultError` gives the error field (if any) of the
`add_result_for_case` POST for a given run id and case id. -/
structure Remote where
  getRun : Nat → Except String RunInfo
  getPlan : Nat → Except String PlanInfo
  getTests : Nat → Except String (List RemoteTest)
  addRun : Except String Nat
  postResultError : Nat → Nat → Option String
  closeRunError : Nat → Option String
  closePlanError : Nat → Option String

/-- `PyTestRailPlugin.is_testrun_available`: fetch the run; on a remote
error return `False`, otherwise `response['is_completed'] is False`. -/
def is_testrun_available (st : PluginState) (remote : Remote) : Bool :=
  match remote.getRun st.testrun_id with
  | .error _ => false
  | .ok info => !info.is_completed

/-- `PyTestRailPlugin.is_testplan_available`: fetch the plan; on a remote
error log and return `False`, otherwise `response['is_completed'] is
False`. -/
def is_testplan_available (st : PluginState) (remote : Remote) : Bool :=
  match remote.getPlan st.testplan_id with
  | .error _ => false
  | .ok info => !info.is_completed

/-- `PyTestRailPlugin.get_available_testruns`: on a remote error log and
return the empty list, otherwise collect, over the plan entries in order,
the ids of the runs whose `is_completed` flag is false. -/
def get_available_testruns (remote : Remote) (plan_id : Nat) : List Nat :=
  match remote.getPlan plan_id with
  | .error _ => []
  | .ok info =>
    (((info.entries.map PlanEntry.runs).flatten).filter
      (fun run => !run.is_completed)).map PlanRun.id

/-- The class attribute `PyTestRailPlugin.test_status` dict. -/
def test_status (s : String) : Option Nat :=
  List.lookup s
    [("passed", 1), ("blocked", 2), ("untested", 3), ("retest", 4), ("failed", 5)]

/-- The `blocked_tests_list` comprehension of `publish_results`: case ids of
the `get_tests` rows whose `status_id` equals `test_status["blocked"]`. -/
def blocked_cases (tests : List RemoteTest) : List Nat :=
  (tests.filter (fun t => test_status "blocked" == some t.status_id)).map
    RemoteTest.case_id

/-- The dict built by `PyTestRailPlugin.__process_result`: optional fields
are present exactly when the corresponding Python value is truthy. -/
structure Entry where
  status_id : Option Nat
  case_id : Nat
  version : Option String
  comment : Option String
  elapsed : Option String
deriving DecidableEq

/-- `PyTestRailPlugin.__process_result`: keep status and case id; attach the
session version when non-empty; attach the formatted comment when the raw
comment is truthy; attach `elapsed` when the duration is truthy, as `'1s'`
for durations below one second and `f'{int(round(duration))}s'`
otherwise. -/
def process_result (st : PluginState) (result : RawResult) : Entry :=
  { status_id := result.status_id
    case_id := result.case_id
    version := if st.version ≠ "" then some st.version else none
    comment :=
      if result.comment ≠ "" then some (formatted_comment result.comment)
      else none
    elapsed :=
      if result.duration ≠ 0 then
        some (toString (if result.duration < 1 then (1 : ℤ)
                        else python_round result.duration) ++ "s")
      else none }

/-- One POST to `add_result_for_case/{run_id}/{case_id}`. -/
structure Submission where
  testrun_id : Nat
  case_id : Nat
  body : Entry
deriving DecidableEq

/-- The tuple of benign error messages that `publish_result` suppresses from
logging. -/
def benign_errors : List String :=
  ["No (active) test found for the run/case combination."]

/-- `PyTestRailPlugin.publish_result`: POST the entry for its case on the
given run; if the response reports an error that is not in the benign
tuple, print it.  The submission always happens and the method never
raises; the returned list holds the logged error, if any. -/
def publish_result (remote : Remote) (entry : Entry) (testrun_id : Nat) :
    Submission × List String :=
  (⟨testrun_id, entry.case_id, entry⟩,
   match remote.postResultError testrun_id entry.case_id with
   | some e => if e ∈ benign_errors then [] else [e]
   | none => [])

/-- The results retained for dispatch by `publish_results`: the whole buffer
when `publish_blocked` is set; otherwise the buffer minus the results whose
case id is in the remote blocked set for the target run.  The `get_tests`
query of the blocked branch raises `TestsNotFoundException` on a remote
error, modelled as `Except.error`. -/
def retained_results (st : PluginState) (remote : Remote) (testrun_id : Nat) :
    Except Unit (List RawResult) :=
  if st.publish_blocked then Except.ok st.results
  else
    match remote.getTests testrun_id with
    | .error _ => Except.error ()
    | .ok tests =>
      Except.ok (st.results.filter
        (fun r => !(decide (r.case_id ∈ blocked_cases tests))))

/-- `PyTestRailPlugin.publish_results` for one target run: process each
retained result and publish it.  The worker pool drains the queue after
every `put` (the `join` is inside the producer loop), so the submissions
happen in retained order; the second component collects the logged
per-submission errors. -/
def publish_results (st : PluginState) (remote : Remote) (testrun_id : Nat) :
    Except Unit (List Submission × List String) :=
  match retained_results st remote testrun_id with
  | .error e => Except.error e
  | .ok retained =>
    let pubs := (retained.map (process_result st)).map
      (fun entry => publish_result remote entry testrun_id)
    Except.ok (pubs.map Prod.fst, (pubs.map Prod.snd).flatten)

/-- The case ids of the submissions dispatched by `publish_results`, in
dispatch order (empty when the call raises). -/
def dispatch_cases (st : PluginState) (remote : Remote) (testrun_id : Nat) :
    List Nat :=
  match publish_results st remote testrun_id with
  | .error _ => []
  | .ok (subs, _) => subs.map Submission.case_id

/-- An externally visible action of the session-finish handler. -/
inductive SessionAction where
  | submit (s : Submission)
  | closeRun (id : Nat)
  | closePlan (id : Nat)
deriving DecidableEq

/-- The `for testrun_id in testruns: self.publish_results(testrun_id)` loop
of `pytest_sessionfinish`: publish to each run in order; a raised
`TestsNotFoundException` aborts the remaining runs (the submissions already
made are kept, the exception propagates as `some ()`). -/
def publish_loop (st : PluginState) (remote : Remote) :
    List Nat → List SessionAction × Option Unit
  | [] => ([], none)
  | run :: rest =>
    match publish_results st remote run with
    | .error _ => ([], some ())
    | .ok (subs, _) =>
      let tail := publish_loop st remote rest
      (subs.map SessionAction.submit ++ tail.1, tail.2)

/-- The two trailing `close_on_complete` conditionals of
`pytest_sessionfinish`. -/
def session_closes (st : PluginState) : List SessionAction :=
  if st.close_on_complete = true ∧ st.testrun_id ≠ 0 then
    [SessionAction.closeRun st.testrun_id]
  else if st.close_on_complete = true ∧ st.testplan_id ≠ 0 then
    [SessionAction.closePlan st.testplan_id]
  else []

/-- `PyTestRailPlugin.pytest_sessionfinish`: when the buffer is non-empty,
publish to the configured run, else to every open run of the configured
plan, else to nothing; afterwards (only when no exception escaped the
publishing, since a raise skips the rest of the method) emit the
close-on-complete action.  The first component lists the performed actions
in order; the second is `some ()` when `TestsNotFoundException` escaped. -/
def pytest_sessionfinish (st : PluginState) (remote : Remote) :
    List SessionAction × Option Unit :=
  if st.results = [] then ([], none)
  else
    let pub :=
      if st.testrun_id ≠ 0 then
        match publish_results st remote st.testrun_id with
        | .error _ => (([] : List SessionAction), (some () : Option Unit))
        | .ok (subs, _) => (subs.map SessionAction.submit, none)
      else if st.testplan_id ≠ 0 then
        publish_loop st remote (get_available_testruns remote st.testplan_id)
      else ([], none)
    (pub.1 ++ (if pub.2 = none then session_closes st else []), pub.2)

/-- A collected pytest item: the `ids` kwarg of its closest testrail marker
(when marked) and whether a skip marker has been added. -/
structure Item where
  marker_ids : Option (List String)
  skipped : Bool
deriving DecidableEq

/-- `PyTestRailPlugin.get_testrail_keys`: the marked items paired with their
cleaned case ids, in collection order. -/
def get_testrail_keys (items : List Item) : List (Item × List Nat) :=
  items.filterMap
    (fun i => i.marker_ids.map (fun ids => (i, ids.map clean_test_id)))

/-- The skip-missing loop of `pytest_collection_modifyitems`: a marked item
whose case ids are all absent from the run's test list gets a skip
marker. -/
def apply_skip_missing (tests_list : List Nat) (items : List Item) :
    List Item :=
  items.map (fun i =>
    match i.marker_ids with
    | none => i
    | some ids =>
      if (ids.map clean_test_id).all (fun c => !(decide (c ∈ tests_list))) then
        { i with skipped := true }
      else i)

/-- `PyTestRailPlugin.create_test_run`: POST `add_run/{project_id}` with the
body `{suite_id, name := testrun_name, assignedto_id, include_all,
case_ids := tr_keys}`; on a remote error only log (the run id is left
unchanged), on success store the returned id as the active run id. -/
def create_test_run (st : PluginState) (remote : Remote)
    (tr_keys : List Nat) : PluginState :=
  match remote.addRun with
  | .error _ => st
  | .ok id => { st with testrun_id := id }

/-- Outcome of `pytest_collection_modifyitems`: the updated plugin state,
the (possibly skip-marked) items, and whether `TestsNotFoundException`
escaped from the skip-missing `get_tests` query. -/
structure CollectResult where
  state : PluginState
  items : List Item
  raised : Bool
deriving DecidableEq

/-- `PyTestRailPlugin.pytest_collection_modifyitems`: if a plan is
configured and open, clear the run id; else if a run is configured and
open, clear the plan id (and apply skip-missing when enabled — its
`get_tests` query may raise after the plan id was already cleared); else
default the run name to `'Automated Run <utc now>'` and create a new
run assigned all collected case ids. -/
def pytest_collection_modifyitems (st : PluginState) (remote : Remote)
    (now : String) (items : List Item) : CollectResult :=
  if st.testplan_id ≠ 0 ∧ is_testplan_available st remote = true then
    ⟨{ st with testrun_id := 0 }, items, false⟩
  else if st.testrun_id ≠ 0 ∧ is_testrun_available st remote = true then
    if st.skip_missing then
      match remote.getTests st.testrun_id with
      | .error _ => ⟨{ st with testplan_id := 0 }, items, true⟩
      | .ok tests =>
        ⟨{ st with testplan_id := 0 },
         apply_skip_missing (tests.map RemoteTest.case_id) items, false⟩
    else ⟨{ st with testplan_id := 0 }, items, false⟩
  else
    ⟨create_test_run
       { st with testrun_name :=
                   some (st.testrun_name.getD ("Automated Run " ++ now)) }
       remote (((get_testrail_keys items).map Prod.snd).flatten),
     items, false⟩

/-- Pair relation used to show the truncation notice cannot occur in an
untruncated formatted comment: every newline is immediately followed by a
space. -/
def nl_ok (a b : Char) : Prop := a = '\n' → b = ' '

instance : DecidableRel nl_ok := fun a b => by
  unfold nl_ok
  infer_instance

/-- Boolean evaluator for `nl_ok` over consecutive pairs of a list, used to
check concrete lists by kernel computation. -/
def nl_ok_b : List Char → Bool
  | a :: b :: rest => (!(a == '\n') || (b == ' ')) && nl_ok_b (b :: rest)
  | _ => true

/-- A neutral plugin-state fixture for concrete evaluations. -/
def st0 : PluginState :=
  { assign_user_id := 0
    project_id := 1
    suite_id := 1
    include_all := false
    testrun_name := some "run"
    testrun_id := 0
    testplan_id := 0
    version := ""
    close_on_complete := false
    publish_blocked := true
    skip_missing := false
    results := [] }

/-- A remote fixture that answers every query successfully and reports no
submission errors. -/
def remote0 : Remote :=
  { getRun := fun _ => Except.ok ⟨false⟩
    getPlan := fun _ => Except.ok ⟨false, []⟩
    getTests := fun _ => Except.ok []
    addRun := Except.ok 77
    postResultError := fun _ _ => none
    closeRunError := fun _ => none
    closePlanError := fun _ => none }

/-- Buffer fixture for the sorting claim: case 2 recorded before case 1. -/
def stC2 : PluginState :=
  { st0 with
    testrun_id := 7
    results := [⟨2, some 1, "", 0⟩, ⟨1, some 1, "", 0⟩] }

/-- Session fixture for the plan-independence claim: plan 9 selected, one
buffered result, blocked publishing disabled. -/
def stC4 : PluginState :=
  { st0 with
    testplan_id := 9
    publish_blocked := false
    results := [⟨100, some 1, "", 0⟩] }

/-- Remote fixture for the plan-independence claim: plan 9 is open with open
runs 10 and 11, and the `get_tests` query for run 10 reports an error. -/
def remoteC4 : Remote :=
  { remote0 with
    getPlan := fun _ => Except.ok ⟨false, [⟨[⟨10, false⟩, ⟨11, false⟩]⟩]⟩
    getTests := fun run =>
      if run = 10 then Except.error ("boom") else Except.ok [] }

/-- Session fixture: plan 9 selected, one buffered result, blocked
publishing enabled (no `get_tests` round-trip). -/
def stC4w : PluginState :=
  { st0 with testplan_id := 9, results := [⟨100, some 1, "", 0⟩] }

/-- Remote fixture: plan 9 open with open runs 10 and 11, and every
submission to run 10 reports a remote error. -/
def remoteC4w : Remote :=
  { remote0 with
    getPlan := fun _ => Except.ok ⟨false, [⟨[⟨10, false⟩, ⟨11, false⟩]⟩]⟩
    postResultError := fun run _ => if run = 10 then some ("bad") else none }

/-- Session fixture for blocked filtering: blocked publishing disabled,
results for cases 1 and 2 buffered, run 7 targeted. -/
def stC7 : PluginState :=
  { st0 with
    publish_blocked := false
    testrun_id := 7
    results := [⟨1, some 5, "", 0⟩, ⟨2, some 1, "", 0⟩] }

/-- Remote fixture for blocked filtering: case 1 is in Blocked status on
every run. -/
def remoteC7 : Remote :=
  { remote0 with getTests := fun _ => Except.ok [⟨1, 2⟩] }

/-- Session fixture for submission-failure isolation: two buffered
results. -/
def stC8 : PluginState :=
  { st0 with results := [⟨1, some 5, "", 0⟩, ⟨2, some 1, "", 0⟩] }

/-- Remote fixture for submission-failure isolation: submissions for case 1
report a remote error, all others succeed. -/
def remoteC8 : Remote :=
  { remote0 with
    postResultError := fun _ c => if c = 1 then some ("bad") else none }

/-- Session fixture with both a plan id and a run id configured. -/
def stC3 : PluginState :=
  { st0 with testplan_id := 9, testrun_id := 5 }

/-- Session fixture with no configured run or plan and one buffered
result. -/
def stC9 : PluginState :=
  { st0 with results := [⟨5, some 1, "", 0⟩] }

/-- Remote fixture whose `add_run` request fails. -/
def remoteC9 : Remote :=
  { remote0 with addRun := Except.error ("service unavailable") }

/-- Session fixture with an empty result buffer, close-on-complete enabled
and a configured run. -/
def stC10 : PluginState :=
  { st0 with close_on_complete := true, testrun_id := 5 }

lemma process_result_elapsed (st : PluginState) (r : RawResult) :
    (process_result st r).elapsed
      = (if r.duration ≠ 0 then
           some (toString (if r.duration < 1 then (1 : ℤ)
                           else python_round r.duration) ++ "s")
         else none) := rfl

lemma process_result_case_id (st : PluginState) (r : RawResult) :
    (process_result st r).case_id = r.case_id := rfl

lemma sessionfinish_no_target (st : PluginState) (remote : Remote)
    (h1 : st.testrun_id = 0) (h2 : st.testplan_id = 0) :
    pytest_sessionfinish st remote = ([], none) := by
  simp [pytest_sessionfinish, session_closes, h1, h2]

/-- C10: when the Result Buffer is empty at session end, the session-finish
handler performs no publishing and no close request, even when close on
complete is enabled: every externally visible action is skipped. -/
theorem C10_empty_buffer_no_actions (st : PluginState) (remote : Remote)
    (h : st.results = []) :
    pytest_sessionfinish st remote = ([], none) := by
  unfold pytest_sessionfinish
  rw [if_pos h]

/-- Witness for C10 at a concrete state with close on complete enabled and
a configured run. -/
theorem C10_witness : pytest_sessionfinish stC10 remote0 = ([], none) :=
  C10_empty_buffer_no_actions stC10 remote0 rfl

/-- C9: when the `add_run` request fails, `create_test_run` leaves the run
id unchanged; with no run or plan configured the session still targets
nothing after collection, and session finish performs no action. -/
theorem C9_failed_run_creation (st : PluginState) (remote : Remote)
    (now : String) (items : List Item) (tr_keys : List Nat) (e : String)
    (hplan : st.testplan_id = 0) (hrun : st.testrun_id = 0)
    (hadd : remote.addRun = Except.error e) :
    (create_test_run st remote tr_keys).testrun_id = st.testrun_id ∧
    (pytest_collection_modifyitems st remote now items).state.testrun_id = 0 ∧
    (pytest_collection_modifyitems st remote now items).state.testplan_id = 0 ∧
    pytest_sessionfinish (pytest_collection_modifyitems st remote now items).state remote
      = ([], none) := by
  have hcreate : ∀ (s : PluginState) (keys : List Nat),
      create_test_run s remote keys = s := by
    intro s keys
    unfold create_test_run
    rw [hadd]
  have hstate : (pytest_collection_modifyitems st remote now items).state
      = { st with testrun_name :=
                    some (st.testrun_name.getD ("Automated Run " ++ now)) } := by
    unfold pytest_collection_modifyitems
    rw [if_neg (by simp [hplan]), if_neg (by simp [hrun]), hcreate]
  refine ⟨by rw [hcreate], ?_, ?_, ?_⟩
  · rw [hstate]; exact hrun
  · rw [hstate]; exact hplan
  · rw [hstate]
    exact sessionfinish_no_target _ remote hrun hplan

/-- Witness for C9: a session with a non-empty buffer whose run creation
failed publishes nothing at session end. -/
theorem C9_witness :
    pytest_sessionfinish (pytest_collection_modifyitems stC9 remoteC9 ("t") []).state remoteC9
      = ([], none) :=
  (C9_failed_run_creation stC9 remoteC9 ("t") [] [] ("service unavailable")
    rfl rfl rfl).2.2.2

/-- C1, counterexample to the claim as stated: the outcome mapping is the
dict-get `{passed: 1, failed: 5, skipped: 2}.get(outcome)`; for the finish
state `error` it produces the default `None` and the hook records a result
with an empty status instead of raising an UnmappedOutcome error (no such
error exists in the code). -/
theorem C1_counterexample :
    outcome_status ("error") = none ∧
    (pytest_runtest_makereport st0 true [("C123")] ("call") ("error") ("") 0).results
      = [⟨123, none, "", 0⟩] :=
  ⟨by decide, by decide⟩

/-- C1, amended: the mapper sends passed, failed, skipped to 1, 5, 2; every
other finish state maps to no status (`None`), and the hook records the
result with that empty status rather than raising. -/
theorem C1_unmapped_recorded (o : String) (st : PluginState)
    (ids : List String) (c : String) (d : ℚ) (h1 : o ≠ "passed")
    (h2 : o ≠ "failed") (h3 : o ≠ "skipped") (hids : ids ≠ []) :
    outcome_status ("passed") = some 1 ∧
    outcome_status ("failed") = some 5 ∧
    outcome_status ("skipped") = some 2 ∧
    outcome_status o = none ∧
    (pytest_runtest_makereport st true ids ("call") o c d).results
      = st.results ++ (ids.map clean_test_id).map (fun i => ⟨i, none, c, d⟩) := by
  have hnone : outcome_status o = none := by
    have hb1 : (o == "passed") = false := beq_eq_false_iff_ne.mpr h1
    have hb2 : (o == "failed") = false := beq_eq_false_iff_ne.mpr h2
    have hb3 : (o == "skipped") = false := beq_eq_false_iff_ne.mpr h3
    simp [outcome_status, List.lookup, hb1, hb2, hb3]
  refine ⟨by decide, by decide, by decide, hnone, ?_⟩
  unfold pytest_runtest_makereport
  rw [if_pos ⟨rfl, rfl, hids⟩]
  unfold add_result
  rw [hnone]

/-- Witness for C1 at the unmapped finish state `error`. -/
theorem C1_witness :
    (pytest_runtest_makereport st0 true [("C123")] ("call") ("error") ("x") 2).results
      = st0.results ++ (([("C123")] : List String).map clean_test_id).map
          (fun i => ⟨i, none, "x", 2⟩) :=
  (C1_unmapped_recorded ("error") st0 [("C123")] ("x") 2 (by decide) (by decide)
    (by decide) (by decide)).2.2.2.2

/-- C5: the elapsed projection of `__process_result`: zero duration gives no
elapsed field, a positive duration below one second gives `1s`, and a
duration of at least one second gives the rounded number of seconds (Python
round, half to even). -/
theorem C5_elapsed_projection (st : PluginState) (r : RawResult) :
    (r.duration = 0 → (process_result st r).elapsed = none) ∧
    (0 < r.duration → r.duration < 1 →
      (process_result st r).elapsed = some ("1s")) ∧
    (1 ≤ r.duration →
      (process_result st r).elapsed
        = some (toString (python_round r.duration) ++ ("s"))) := by
  refine ⟨?_, ?_, ?_⟩
  · intro h
    rw [process_result_elapsed]
    simp [h]
  · intro h0 h1
    rw [process_result_elapsed, if_pos (ne_of_gt h0), if_pos h1]
    have hs : toString (1 : ℤ) ++ ("s") = "1s" := by decide
    rw [hs]
  · intro h
    have hne : r.duration ≠ 0 := ne_of_gt (lt_of_lt_of_le zero_lt_one h)
    rw [process_result_elapsed, if_pos hne, if_neg (not_lt.mpr h)]

/-- Witness for C5 at a half-second duration. -/
theorem C5_witness :
    (process_result st0 ⟨100, some 1, "", 1/2⟩).elapsed = some ("1s") :=
  (C5_elapsed_projection st0 ⟨100, some 1, "", 1/2⟩).2.1 (by norm_num) (by norm_num)

/-- C2, counterexample to the claim as stated: `publish_results` performs no
sort — with case 2 recorded before case 1 the dispatch order is `[2, 1]`,
so adjacent case ids are not non-decreasing. -/
theorem C2_counterexample :
    dispatch_cases stC2 remote0 7 = [2, 1] ∧
    ¬ List.Chain' (fun a b : Nat => a ≤ b) (dispatch_cases stC2 remote0 7) := by
  refine ⟨by decide, ?_⟩
  intro hch
  rw [show dispatch_cases stC2 remote0 7 = [2, 1] by decide] at hch
  exact absurd (List.chain'_cons.mp hch).1 (by norm_num)

/-- C2, amended: the Publishing Engine does not reorder the retained
PublishableResults; they are dispatched in exactly the order they sit in
the Result Buffer after the optional blocked filter. -/
theorem C2_dispatch_preserves_buffer_order (st : PluginState)
    (remote : Remote) (run : Nat) (subs : List Submission)
    (logs : List String) (retained : List RawResult)
    (hret : retained_results st remote run = Except.ok retained)
    (hpub : publish_results st remote run = Except.ok (subs, logs)) :
    subs.map Submission.case_id = retained.map RawResult.case_id := by
  simp only [publish_results, hret] at hpub
  injection hpub with h
  rw [Prod.mk.injEq] at h
  rw [← h.1]
  simp [List.map_map, Function.comp, publish_result, process_result]

/-- Witness for C2 amended: the dispatch case ids equal the buffer case ids
in buffer order. -/
theorem C2_witness :
    ([⟨7, 2, ⟨some 1, 2, none, none, none⟩⟩,
      ⟨7, 1, ⟨some 1, 1, none, none, none⟩⟩] : List Submission).map Submission.case_id
      = stC2.results.map RawResult.case_id :=
  C2_dispatch_preserves_buffer_order stC2 remote0 7 _ [] stC2.results
    (by rfl) (by rfl)

/-- C3: at collection time, if a plan is configured and open the run id is
cleared to 0 (the plan id is kept); otherwise if a run is configured and
open the plan id is cleared to 0 (the run id is kept); otherwise a new run
is created and, when the `add_run` request succeeds, its id becomes the
active run id. -/
theorem C3_run_plan_resolution (st : PluginState) (remote : Remote)
    (now : String) (items : List Item) :
    (st.testplan_id ≠ 0 → is_testplan_available st remote = true →
      (pytest_collection_modifyitems st remote now items).state.testplan_id
          = st.testplan_id ∧
      (pytest_collection_modifyitems st remote now items).state.testrun_id = 0) ∧
    (¬ (st.testplan_id ≠ 0 ∧ is_testplan_available st remote = true) →
      st.testrun_id ≠ 0 → is_testrun_available st remote = true →
      (pytest_collection_modifyitems st remote now items).state.testrun_id
          = st.testrun_id ∧
      (pytest_collection_modifyitems st remote now items).state.testplan_id = 0) ∧
    (¬ (st.testplan_id ≠ 0 ∧ is_testplan_available st remote = true) →
     ¬ (st.testrun_id ≠ 0 ∧ is_testrun_available st remote = true) →
      ∀ id, remote.addRun = Except.ok id →
        (pytest_collection_modifyitems st remote now items).state.testrun_id = id) := by
  refine ⟨?_, ?_, ?_⟩
  · intro h1 h2
    unfold pytest_collection_modifyitems
    rw [if_pos ⟨h1, h2⟩]
    exact ⟨rfl, rfl⟩
  · intro hn1 h1 h2
    unfold pytest_collection_modifyitems
    rw [if_neg hn1, if_pos ⟨h1, h2⟩]
    by_cases hs : st.skip_missing
    · rw [if_pos hs]
      cases remote.getTests st.testrun_id with
      | error e => exact ⟨rfl, rfl⟩
      | ok tests => exact ⟨rfl, rfl⟩
    · rw [if_neg hs]
      exact ⟨rfl, rfl⟩
  · intro hn1 hn2 id hid
    unfold pytest_collection_modifyitems
    rw [if_neg hn1, if_neg hn2]
    unfold create_test_run
    rw [hid]

/-- Witness for C3: with plan 9 configured and open (and run 5 also
configured), collection keeps the plan and clears the run id. -/
theorem C3_witness :
    (pytest_collection_modifyitems stC3 remote0 ("t") []).state.testplan_id
        = stC3.testplan_id ∧
    (pytest_collection_modifyitems stC3 remote0 ("t") []).state.testrun_id = 0 :=
  (C3_run_plan_resolution stC3 remote0 ("t") []).1 (by decide) (by decide)

/-- C7: with publish-blocked disabled and a successful blocked-cases query,
the publish pass dispatches no submission whose case id is in the remote
blocked set and dispatches one for every buffered result whose case id is
not. -/
theorem C7_blocked_filtering (st : PluginState) (remote : Remote) (run : Nat)
    (tests : List RemoteTest) (subs : List Submission) (logs : List String)
    (hpb : st.publish_blocked = false)
    (ht : remote.getTests run = Except.ok tests)
    (hpub : publish_results st remote run = Except.ok (subs, logs)) :
    (∀ s ∈ subs, s.case_id ∉ blocked_cases tests) ∧
    (∀ r ∈ st.results, r.case_id ∉ blocked_cases tests →
      (publish_result remote (process_result st r) run).1 ∈ subs) := by
  have hret : retained_results st remote run
      = Except.ok (st.results.filter
          (fun r => !(decide (r.case_id ∈ blocked_cases tests)))) := by
    simp only [retained_results, hpb, ht]
    rfl
  have hsubs : subs
      = (st.results.filter (fun r => !(decide (r.case_id ∈ blocked_cases tests)))).map
          (fun r => (publish_result remote (process_result st r) run).1) := by
    simp only [publish_results, hret] at hpub
    injection hpub with h
    rw [Prod.mk.injEq] at h
    rw [← h.1]
    simp [List.map_map, Function.comp]
  constructor
  · intro s hs
    rw [hsubs] at hs
    obtain ⟨r, hrf, rfl⟩ := List.mem_map.mp hs
    have hmem := (List.mem_filter.mp hrf).2
    simp only [Bool.not_eq_true', decide_eq_false_iff_not] at hmem
    simpa [publish_result, process_result] using hmem
  · intro r hr hnb
    rw [hsubs]
    exact List.mem_map_of_mem _
      (List.mem_filter.mpr ⟨hr, by simp [hnb]⟩)

/-- Witness for C7: case 1 is blocked remotely, so only the case 2 result
is dispatched. -/
theorem C7_witness :
    (publish_result remoteC7 (process_result stC7 ⟨2, some 1, "", 0⟩) 7).1
      ∈ ([⟨7, 2, ⟨some 1, 2, none, none, none⟩⟩] : List Submission) :=
  (C7_blocked_filtering stC7 remoteC7 7 [⟨1, 2⟩]
      [⟨7, 2, ⟨some 1, 2, none, none, none⟩⟩] [] rfl rfl (by rfl)).2
    ⟨2, some 1, "", 0⟩ (by decide) (by decide)

/-- C8: whenever the retained-results computation succeeds, the publish
call completes without raising, every retained result is submitted
(remote-reported per-submission errors do not remove any other
submission), and every non-benign reported error is logged. -/
theorem C8_submission_failure_isolation (st : PluginState) (remote : Remote)
    (run : Nat) (retained : List RawResult)
    (hret : retained_results st remote run = Except.ok retained) :
    publish_results st remote run
      = Except.ok
          (retained.map (fun r => (publish_result remote (process_result st r) run).1),
           (retained.map (fun r => (publish_result remote (process_result st r) run).2)).flatten) ∧
    ∀ r ∈ retained, ∀ e,
      remote.postResultError run (process_result st r).case_id = some e →
      e ∉ benign_errors →
      e ∈ (retained.map (fun r => (publish_result remote (process_result st r) run).2)).flatten := by
  constructor
  · simp only [publish_results, hret]
    simp [List.map_map, Function.comp_def]
  · intro r hr e he hbe
    apply List.mem_flatten.mpr
    refine ⟨(publish_result remote (process_result st r) run).2,
      List.mem_map_of_mem _ hr, ?_⟩
    simp [publish_result, he, hbe]

/-- Witness for C8: a remote error on the case 1 submission is logged while
both submissions still happen. -/
theorem C8_witness :
    ("bad") ∈ (stC8.results.map
      (fun r => (publish_result remoteC8 (process_result stC8 r) 3).2)).flatten :=
  (C8_submission_failure_isolation stC8 remoteC8 3 stC8.results rfl).2
    ⟨1, some 5, "", 0⟩ (by decide) ("bad") rfl (by decide)

lemma publish_results_of_pb (st : PluginState) (remote : Remote) (run : Nat)
    (h : st.publish_blocked = true) :
    publish_results st remote run
      = Except.ok
          (st.results.map (fun r => (publish_result remote (process_result st r) run).1),
           (st.results.map (fun r => (publish_result remote (process_result st r) run).2)).flatten) := by
  have hret : retained_results st remote run = Except.ok st.results := by
    unfold retained_results
    rw [h]
    simp
  simp only [publish_results, hret]
  simp [List.map_map, Function.comp_def]

lemma publish_loop_all (st : PluginState) (remote : Remote)
    (h : st.publish_blocked = true) (runs : List Nat) :
    (publish_loop st remote runs).2 = none ∧
    ∀ run ∈ runs, ∀ r ∈ st.results,
      SessionAction.submit (publish_result remote (process_result st r) run).1
        ∈ (publish_loop st remote runs).1 := by
  induction runs with
  | nil => exact ⟨rfl, by simp⟩
  | cons run rest ih =>
    have hpr := publish_results_of_pb st remote run h
    constructor
    · simp only [publish_loop, hpr]
      exact ih.1
    · intro run' hrun' r hr
      simp only [publish_loop, hpr]
      rcases List.mem_cons.mp hrun' with h1 | h1
      · subst h1
        exact List.mem_append_left _
          (List.mem_map_of_mem _ (List.mem_map_of_mem _ hr))
      · exact List.mem_append_right _ (ih.2 run' h1 r hr)

/-- C4, counterexample to the claim as stated: plan 9 has open runs 10 and
11 and the buffer is non-empty, but with publish-blocked disabled the
failed `get_tests` query of the run 10 pass raises, so the session ends
with no action at all — the run 11 pass never executes although publishing
to run 11 alone would have dispatched a submission. -/
theorem C4_counterexample :
    get_available_testruns remoteC4 9 = [10, 11] ∧
    publish_results stC4 remoteC4 11
      = Except.ok ([⟨11, 100, ⟨some 1, 100, none, none, none⟩⟩], []) ∧
    pytest_sessionfinish stC4 remoteC4 = ([], some ()) :=
  ⟨by decide, by rfl, by rfl⟩

/-- C4, amended: when the per-run publish pass itself cannot raise (blocked
publishing enabled, so no `get_tests` round-trip), remote errors on
individual submissions never prevent the pass for any later run: every open
run of the plan receives a submission for every buffered result. -/
theorem C4_publish_blocked_runs_independent (st : PluginState)
    (remote : Remote) (hpb : st.publish_blocked = true)
    (hrun : st.testrun_id = 0) (hplan : st.testplan_id ≠ 0)
    (hres : st.results ≠ []) :
    (pytest_sessionfinish st remote).2 = none ∧
    ∀ run ∈ get_available_testruns remote st.testplan_id, ∀ r ∈ st.results,
      SessionAction.submit (publish_result remote (process_result st r) run).1
        ∈ (pytest_sessionfinish st remote).1 := by
  have hloop := publish_loop_all st remote hpb
    (get_available_testruns remote st.testplan_id)
  have hfin : pytest_sessionfinish st remote
      = ((publish_loop st remote (get_available_testruns remote st.testplan_id)).1
           ++ (if (publish_loop st remote (get_available_testruns remote st.testplan_id)).2
                  = none then session_closes st else []),
         (publish_loop st remote (get_available_testruns remote st.testplan_id)).2) := by
    unfold pytest_sessionfinish
    rw [if_neg hres, if_neg (by simp [hrun]), if_pos hplan]
  rw [hfin]
  constructor
  · exact hloop.1
  · intro run hrun' r hr
    exact List.mem_append_left _ (hloop.2 run hrun' r hr)

/-- Witness for C4 amended: a remote error on every submission to run 10
does not prevent the submission of the buffered result to run 11. -/
theorem C4_witness :
    SessionAction.submit
        (publish_result remoteC4w (process_result stC4w ⟨100, some 1, "", 0⟩) 11).1
      ∈ (pytest_sessionfinish stC4w remoteC4w).1 :=
  (C4_publish_blocked_runs_independent stC4w remoteC4w rfl rfl
      (by decide) (by decide)).2 11 (by decide) ⟨100, some 1, "", 0⟩ (by decide)


lemma nl_ok_of_not_nl {a b : Char} (h : ¬ a = '\n') : nl_ok a b :=
  fun hc => absurd hc h

lemma nl_ok_b_chain : ∀ (l : List Char), nl_ok_b l = true → List.Chain' nl_ok l := by
  intro l
  induction l with
  | nil => intro h; exact List.chain'_nil
  | cons a rest ih =>
    cases rest with
    | nil => intro h; exact List.chain'_singleton a
    | cons b rest2 =>
      intro h
      simp only [nl_ok_b, Bool.and_eq_true] at h
      rw [List.chain'_cons]
      refine ⟨?_, ih h.2⟩
      intro ha
      subst ha
      rcases Bool.or_eq_true _ _ |>.mp h.1 with h1 | h1
      · simp at h1
      · exact eq_of_beq h1

lemma chain'_indent_chars (p : List Char) :
    List.Chain' nl_ok (indent_chars p) := by
  induction p with
  | nil => simp [indent_chars]
  | cons c cs ih =>
    by_cases hc : c = '\n'
    · subst hc
      have he : indent_chars ('\n' :: cs)
          = '\n' :: ' ' :: ' ' :: ' ' :: ' ' :: indent_chars cs := by
        simp [indent_chars]
      rw [he, List.chain'_cons, List.chain'_cons, List.chain'_cons,
        List.chain'_cons, List.chain'_cons']
      refine ⟨fun _ => rfl, nl_ok_of_not_nl (by decide),
        nl_ok_of_not_nl (by decide), nl_ok_of_not_nl (by decide), ?_, ih⟩
      intro y hy
      exact nl_ok_of_not_nl (by decide)
    · have he : indent_chars (c :: cs) = c :: indent_chars cs := by
        simp [indent_chars, hc]
      rw [he, List.chain'_cons']
      exact ⟨fun y hy => nl_ok_of_not_nl hc, ih⟩

lemma chain'_formatted_of_le (p : List Char)
    (h : p.length ≤ max_comment_size) :
    List.Chain' nl_ok (formatted_comment_chars p) := by
  have hnot : ¬ max_comment_size < p.length := not_lt.mpr h
  have hlast : last_chars max_comment_size p = p := by
    unfold last_chars
    rw [Nat.sub_eq_zero_of_le h, List.drop_zero]
  unfold formatted_comment_chars
  rw [if_neg hnot, hlast, List.append_nil]
  rw [List.chain'_append]
  refine ⟨nl_ok_b_chain comment_header (by decide), ?_, ?_⟩
  · rw [List.chain'_append]
    refine ⟨nl_ok_b_chain [' ', ' ', ' ', ' '] (by decide),
      chain'_indent_chars p, ?_⟩
    intro x hx y hy
    have hx2 : ' ' = x := by
      rw [show List.getLast? ([' ', ' ', ' ', ' '] : List Char) = some ' ' from rfl] at hx
      simpa using hx
    subst hx2
    exact nl_ok_of_not_nl (by decide)
  · intro x hx y hy
    have hx2 : '\n' = x := by
      rw [show List.getLast? comment_header = some '\n' from by rfl] at hx
      simpa using hx
    have hy2 : ' ' = y := by
      rw [show List.head? ([' ', ' ', ' ', ' '] ++ indent_chars p) = some ' ' from rfl] at hy
      simpa using hy
    subst hx2
    subst hy2
    exact fun _ => rfl

lemma notice_not_infix_of_chain {l : List Char}
    (hc : List.Chain' nl_ok l) : ¬ trunc_notice <:+: l := by
  intro hinf
  obtain ⟨s, t, heq⟩ := hinf
  rw [← heq] at hc
  have h1 : List.Chain' nl_ok (s ++ trunc_notice) :=
    (List.chain'_append.mp hc).1
  have h2 : List.Chain' nl_ok trunc_notice :=
    (List.chain'_append.mp h1).2.1
  simp [trunc_notice, List.chain'_cons, nl_ok] at h2

/-- C6: the formatted comment always starts with the fixed header; when the
payload fits in `max_comment_size` the output holds no truncation notice
and contains the whole payload re-indented by four spaces; when the payload
is longer the output contains the truncation notice immediately followed by
exactly the last `max_comment_size` characters of the payload,
re-indented. -/
theorem C6_comment_formatter (p : List Char) :
    comment_header <+: formatted_comment_chars p ∧
    (p.length ≤ max_comment_size →
      ¬ trunc_notice <:+: formatted_comment_chars p ∧
      ([' ', ' ', ' ', ' '] ++ indent_chars p) <:+: formatted_comment_chars p) ∧
    (max_comment_size < p.length →
      (trunc_notice ++ ([' ', ' ', ' ', ' ']
          ++ indent_chars (last_chars max_comment_size p)))
        <:+: formatted_comment_chars p ∧
      last_chars max_comment_size p <:+ p ∧
      (last_chars max_comment_size p).length = max_comment_size) := by
  refine ⟨⟨_, (List.append_assoc _ _ _).symm⟩, ?_, ?_⟩
  · intro h
    have hnot : ¬ max_comment_size < p.length := not_lt.mpr h
    have hlast : last_chars max_comment_size p = p := by
      unfold last_chars
      rw [Nat.sub_eq_zero_of_le h, List.drop_zero]
    constructor
    · exact notice_not_infix_of_chain (chain'_formatted_of_le p h)
    · refine ⟨comment_header, [], ?_⟩
      unfold formatted_comment_chars
      rw [if_neg hnot, hlast]
      simp
  · intro h
    refine ⟨⟨comment_header, [], ?_⟩, ?_, ?_⟩
    · unfold formatted_comment_chars
      rw [if_pos h]
      simp [List.append_assoc]
    · unfold last_chars
      exact List.drop_suffix _ _
    · unfold last_chars
      rw [List.length_drop]
      exact Nat.sub_sub_self (le_of_lt h)

/-- Witness for C6 on a 4001-character payload: the truncated, re-indented
tail follows the truncation notice inside the output. -/
theorem C6_witness :
    (trunc_notice ++ ([' ', ' ', ' ', ' ']
        ++ indent_chars (last_chars max_comment_size (List.replicate 4001 'a'))))
      <:+: formatted_comment_chars (List.replicate 4001 'a') :=
  ((C6_comment_formatter (List.replicate 4001 'a')).2.2
    (by norm_num [max_comment_size])).1
